import Mathlib

/-!
Shallow embedding of the `bayes_ttest` orchestration function from
`bayesian_statistics.ipynb` (marderlab/Statistics).

Sample values and pooled statistics are modelled over `ℚ` (exact field
arithmetic standing in for numpy float arithmetic); the traces produced by
the external MCMC sampling engine, and the derived traces that use `sqrt`
and `log`, are modelled over `ℝ`.  The external sampling engine (pymc) is a
parameter of the embedding: any function from a model and a run
configuration to a set of traces.
-/

namespace BayesTTest

/-- Arithmetic mean of a list, mirroring `numpy.ndarray.mean`:
sum divided by length (over any division ring, so it serves both the
rational sample statistics and the real trace summaries). -/
def mean {α : Type} [DivisionRing α] (xs : List α) : α :=
  xs.sum / (xs.length : α)

/-- Population variance of a list, mirroring `numpy.ndarray.var`
(`ddof = 0`): mean of squared deviations from the mean. -/
def var (xs : List ℚ) : ℚ :=
  (xs.map (fun x => (x - mean xs) ^ 2)).sum / (xs.length : ℚ)

/-- Prior distribution families used by the source: `pm.Normal` (with mean
and precision `tau`), `pm.Uniform` (with lower and upper bounds) and
`pm.Exponential` (with rate `beta`). -/
inductive PriorDist : Type
  | normal (mu : ℚ) (tau : ℚ)
  | uniform (lower : ℚ) (upper : ℚ)
  | exponential (beta : ℚ)
deriving DecidableEq

/-- A named latent (stochastic) parameter of the model: label plus prior. -/
structure Stochastic : Type where
  name : String
  prior : PriorDist
deriving DecidableEq

/-- Reference to one of the five latent parameters, used by the observed
nodes to record which latent supplies `mu`, which sigma supplies
`lam = 1/sigma`, and which supplies `nu`. -/
inductive LatentRef : Type
  | muRef1 | muRef2 | sigRef1 | sigRef2 | nuRef
deriving DecidableEq

/-- An observed-likelihood node, mirroring
`pm.NoncentralT(label, mu=…, lam=1/…, nu=…, value=group, observed=True)`. -/
structure ObservedT : Type where
  name : String
  muSrc : LatentRef
  lamSrc : LatentRef
  nuSrc : LatentRef
  value : List ℚ
deriving DecidableEq

/-- A node of the model list passed to `pm.Model`. -/
inductive Node : Type
  | stochastic (s : Stochastic)
  | observed (t : ObservedT)
deriving DecidableEq

/-- The latent (stochastic) parameters of a model, in model-list order. -/
def latents (m : List Node) : List Stochastic :=
  m.filterMap (fun n => match n with
    | .stochastic s => some s
    | .observed _ => none)

/-- The observed-likelihood nodes of a model, in model-list order. -/
def observedNodes (m : List Node) : List ObservedT :=
  m.filterMap (fun n => match n with
    | .stochastic _ => none
    | .observed t => some t)

/-- Model construction from the source (the prior-and-likelihood block of
`bayes_ttest`):

* `pooled = np.concatenate((group1, group2))`
* `mu1 = pm.Normal("mu_1", mu=pooled.mean(), tau=1.0/pooled.var()/N)`
* `mu2 = pm.Normal("mu_2", mu=pooled.mean(), tau=1.0/pooled.var()/N)`
* `sig1 = pm.Uniform("sigma_1", lower=pooled.var()/1000.0, upper=pooled.var()*1000)`
* `sig2 = pm.Uniform("sigma_2", lower=pooled.var()/1000.0, upper=pooled.var()*1000)`
* `v = pm.Exponential("nu", beta=1.0/29)`
* `t1 = pm.NoncentralT("t_1", mu=mu1, lam=1.0/sig1, nu=v, value=group1, observed=True)`
* `t2 = pm.NoncentralT("t_1", mu=mu2, lam=1.0/sig2, nu=v, value=group2, observed=True)`
* `model = pm.Model([t1, mu1, sig1, t2, mu2, sig2, v])` -/
def buildModel (group1 group2 : List ℚ) (N : ℕ) : List Node :=
  let pooled := group1 ++ group2
  let mu1 : Stochastic := ⟨"mu_1", .normal (mean pooled) (1 / var pooled / (N : ℚ))⟩
  let mu2 : Stochastic := ⟨"mu_2", .normal (mean pooled) (1 / var pooled / (N : ℚ))⟩
  let sig1 : Stochastic := ⟨"sigma_1", .uniform (var pooled / 1000) (var pooled * 1000)⟩
  let sig2 : Stochastic := ⟨"sigma_2", .uniform (var pooled / 1000) (var pooled * 1000)⟩
  let v : Stochastic := ⟨"nu", .exponential (1 / 29)⟩
  let t1 : ObservedT := ⟨"t_1", .muRef1, .sigRef1, .nuRef, group1⟩
  let t2 : ObservedT := ⟨"t_1", .muRef2, .sigRef2, .nuRef, group2⟩
  [.observed t1, .stochastic mu1, .stochastic sig1,
   .observed t2, .stochastic mu2, .stochastic sig2, .stochastic v]

/-- Run configuration of the sampling engine, mirroring the positional
arguments of `mcmc.sample(iter, burn, thin)`. -/
structure RunConfig : Type where
  total : ℕ
  burnIn : ℕ
  stride : ℕ
deriving DecidableEq

/-- The configuration demonstrated in the source:
`mcmc.sample(40000, 10000, 2)`. -/
def demoRunConfig : RunConfig := ⟨40000, 10000, 2⟩

/-- Modelled from the spec: the validity condition on a sampling-run
configuration (the sampling engine itself is external and absent from the
source) — burn-in must be at least zero and strictly below the total
iteration count, and the thinning stride must be at least one. -/
def validRunConfig (c : RunConfig) : Prop :=
  0 ≤ c.burnIn ∧ c.burnIn < c.total ∧ 1 ≤ c.stride

instance (c : RunConfig) : Decidable (validRunConfig c) :=
  inferInstanceAs (Decidable (0 ≤ c.burnIn ∧ c.burnIn < c.total ∧ 1 ≤ c.stride))

/-- Traces extracted from the sampler, one per latent parameter, mirroring
`mcmc.trace('mu_1')[:]` and friends. -/
structure Traces : Type where
  mus1 : List ℝ
  mus2 : List ℝ
  sigmas1 : List ℝ
  sigmas2 : List ℝ
  nus : List ℝ

/-- An external sampling engine: consumes a model and a run configuration,
produces a full set of traces. -/
def Engine : Type := List Node → RunConfig → Traces

/-- Errors surfaced by the orchestration. -/
inductive TTestError : Type
  | invalidGroupCount (n : ℕ)
  | samplingFailed
deriving DecidableEq

/-- Modelled from the spec: invoking the external sampling engine, which
validates its run configuration before sampling (pymc is absent from the
source); an invalid configuration fails without the engine being consulted. -/
def runSampler (engine : Engine) (m : List Node) (c : RunConfig) :
    Except TTestError Traces :=
  if validRunConfig c then .ok (engine m c) else .error .samplingFailed

/-- Modelled from the spec: the synthetic data generator `gen_data`
(external collaborator, absent from the source), which generates two
numeric samples of the given size; the values carry no further contract,
so they are left at zero. -/
def gen_data (n : ℕ) : List ℚ × List ℚ :=
  (List.replicate n (0 : ℚ), List.replicate n (0 : ℚ))

/-- Group resolution from the source:

* `if groups is None: group1, group2 = gen_data(N=40)` — note the source
  passes the literal `40`, not the parameter `N`;
* `elif len(groups) != 2: print(error); return None`;
* `else: group1, group2 = groups`. -/
def resolveGroups (groups : Option (List (List ℚ))) (N : ℕ) :
    Except TTestError (List ℚ × List ℚ) :=
  match groups with
  | none => .ok (gen_data 40)
  | some gs =>
      match gs with
      | [g1, g2] => .ok (g1, g2)
      | _ => .error (.invalidGroupCount gs.length)

/-- Elementwise difference of the two mean traces, from the source:
`diff_mus = mus1 - mus2`. -/
def diff_mus (mus1 mus2 : List ℝ) : List ℝ :=
  List.zipWith (fun a b => a - b) mus1 mus2

/-- Elementwise natural log of the robustness trace, from the source:
`normality = np.log(nus)`. -/
noncomputable def normality (nus : List ℝ) : List ℝ :=
  nus.map Real.log

/-- Elementwise standardized effect size, from the source:
`effect_size = (mus1-mus2)/np.sqrt((sigmas1**2+sigmas2**2)/2.)`. -/
noncomputable def effect_size (mus1 mus2 sigmas1 sigmas2 : List ℝ) : List ℝ :=
  List.zipWith (fun d s => d / s)
    (List.zipWith (fun a b => a - b) mus1 mus2)
    (List.zipWith (fun a b => Real.sqrt ((a ^ 2 + b ^ 2) / 2)) sigmas1 sigmas2)

/-- The point summaries printed by the source:
`print(... % (mus1.mean(), mus2.mean(), effect_size.mean()))`. -/
structure Summary : Type where
  group1Mu : ℝ
  group2Mu : ℝ
  effectSize : ℝ

/-- Modelled from the spec: the `ComparisonResult` aggregate the spec says
is returned to the caller — group mean estimates, effect size estimate and,
when visualization is requested, the raw mean and difference-of-means
traces.  This definition follows the spec wording; the return behaviour of
the source is compared against it. -/
structure ComparisonResult : Type where
  group1Mu : ℝ
  group2Mu : ℝ
  effectSize : ℝ
  traces : Option (List ℝ × List ℝ × List ℝ)

/-- The observable outcome of one successful `bayes_ttest` run: what was
printed, whether the traces were handed to the plotting collaborator, and
the value returned to the caller (the source ends in a bare `return`, so
`ret` is `none`). -/
structure RunRecord : Type where
  printed : Summary
  plotted : Bool
  ret : Option ComparisonResult

/-- Sampling-and-summary phase of `bayes_ttest`: build the model, run the
sampler with the demonstrated configuration, extract the five traces,
derive the summary traces, print the point summaries, optionally plot, and
`return` (i.e. return `None`). -/
noncomputable def runComparison (engine : Engine) (group1 group2 : List ℚ)
    (N : ℕ) (showFlag : Bool) : Except TTestError RunRecord :=
  let model := buildModel group1 group2 N
  match runSampler engine model demoRunConfig with
  | .error e => .error e
  | .ok tr =>
      .ok { printed := ⟨mean tr.mus1, mean tr.mus2,
                        mean (effect_size tr.mus1 tr.mus2 tr.sigmas1 tr.sigmas2)⟩,
            plotted := showFlag,
            ret := none }

/-- The full `bayes_ttest(groups=None, N=40, show=False)` orchestration:
resolve the two groups (or fail on a group count other than two), then run
the comparison. -/
noncomputable def bayes_ttest (engine : Engine) (groups : Option (List (List ℚ)))
    (N : ℕ) (showFlag : Bool) : Except TTestError RunRecord :=
  match resolveGroups groups N with
  | .error e => .error e
  | .ok (g1, g2) => runComparison engine g1 g2 N showFlag

/-- A trivial concrete engine producing empty traces, used to instantiate
engine-parametric statements at a concrete input. -/
def constEngine : Engine := fun _ _ => ⟨[], [], [], [], []⟩

/-- The precision parameter of a prior, when it has one (the `tau` of a
normal prior). -/
def priorTau : PriorDist → ℚ
  | .normal _ t => t
  | .uniform _ _ => 0
  | .exponential _ => 0

/-- The precision of the latent parameter with the given label in a model,
if present. -/
def muTau (m : List Node) (label : String) : Option ℚ :=
  ((latents m).find? (fun s => s.name == label)).map (fun s => priorTau s.prior)

/-- An orchestration outcome that reached the summary stage. -/
def succeeded (e : Except TTestError RunRecord) : Prop :=
  ∃ r, e = .ok r

/-! Helper lemmas shared by the claim theorems. -/

lemma mean_append_comm (A B : List ℚ) : mean (A ++ B) = mean (B ++ A) := by
  unfold mean
  rw [List.sum_append, List.sum_append, List.length_append, List.length_append]
  push_cast
  ring

lemma var_append_comm (A B : List ℚ) : var (A ++ B) = var (B ++ A) := by
  unfold var
  rw [mean_append_comm]
  rw [List.map_append, List.map_append, List.sum_append, List.sum_append,
    List.length_append, List.length_append]
  push_cast
  ring

lemma latents_buildModel (g1 g2 : List ℚ) (N : ℕ) :
    latents (buildModel g1 g2 N) =
      [⟨"mu_1", .normal (mean (g1 ++ g2)) (1 / var (g1 ++ g2) / (N : ℚ))⟩,
       ⟨"sigma_1", .uniform (var (g1 ++ g2) / 1000) (var (g1 ++ g2) * 1000)⟩,
       ⟨"mu_2", .normal (mean (g1 ++ g2)) (1 / var (g1 ++ g2) / (N : ℚ))⟩,
       ⟨"sigma_2", .uniform (var (g1 ++ g2) / 1000) (var (g1 ++ g2) * 1000)⟩,
       ⟨"nu", .exponential (1 / 29)⟩] := rfl

lemma observedNodes_buildModel (g1 g2 : List ℚ) (N : ℕ) :
    observedNodes (buildModel g1 g2 N) =
      [⟨"t_1", .muRef1, .sigRef1, .nuRef, g1⟩,
       ⟨"t_1", .muRef2, .sigRef2, .nuRef, g2⟩] := rfl

lemma zipGetD (f : ℝ → ℝ → ℝ) :
    ∀ (l1 l2 : List ℝ) (i : ℕ), i < l1.length → i < l2.length →
      (List.zipWith f l1 l2).getD i 0 = f (l1.getD i 0) (l2.getD i 0) := by
  intro l1
  induction l1 with
  | nil => intro l2 i h1 _; simp at h1
  | cons a l ih =>
      intro l2 i h1 h2
      cases l2 with
      | nil => simp at h2
      | cons b l2t =>
          cases i with
          | zero => simp [List.getD]
          | succ j =>
              simp only [List.zipWith_cons_cons, List.getD_cons_succ]
              exact ih l2t j (by simpa using h1) (by simpa using h2)

lemma mapGetD (f : ℝ → ℝ) :
    ∀ (l : List ℝ) (i : ℕ), i < l.length → (l.map f).getD i 0 = f (l.getD i 0) := by
  intro l
  induction l with
  | nil => intro i h; simp at h
  | cons a t ih =>
      intro i h
      cases i with
      | zero => simp [List.getD]
      | succ j =>
          simp only [List.map_cons, List.getD_cons_succ]
          exact ih j (by simpa using h)

lemma memGetD : ∀ (l : List ℝ) (i : ℕ), i < l.length → l.getD i 0 ∈ l := by
  intro l
  induction l with
  | nil => intro i h; simp at h
  | cons a t ih =>
      intro i h
      cases i with
      | zero => simp [List.getD]
      | succ j =>
          simp only [List.getD_cons_succ]
          exact List.mem_cons_of_mem a (ih j (by simpa using h))

lemma diff_mus_getD (m1 m2 : List ℝ) (i : ℕ) (h1 : i < m1.length) (h2 : i < m2.length) :
    (diff_mus m1 m2).getD i 0 = m1.getD i 0 - m2.getD i 0 :=
  zipGetD _ m1 m2 i h1 h2

lemma effect_size_getD (m1 m2 s1 s2 : List ℝ) (i : ℕ) (h1 : i < m1.length)
    (h2 : i < m2.length) (h3 : i < s1.length) (h4 : i < s2.length) :
    (effect_size m1 m2 s1 s2).getD i 0 =
      (m1.getD i 0 - m2.getD i 0) /
        Real.sqrt ((s1.getD i 0 ^ 2 + s2.getD i 0 ^ 2) / 2) := by
  unfold effect_size
  have lz1 : i < (List.zipWith (fun a b => a - b) m1 m2).length := by
    simp [List.length_zipWith]; omega
  have lz2 : i < (List.zipWith (fun a b => Real.sqrt ((a ^ 2 + b ^ 2) / 2)) s1 s2).length := by
    simp [List.length_zipWith]; omega
  rw [zipGetD _ _ _ i lz1 lz2, zipGetD _ m1 m2 i h1 h2, zipGetD _ s1 s2 i h3 h4]

lemma normality_getD (nus : List ℝ) (i : ℕ) (h : i < nus.length) :
    (normality nus).getD i 0 = Real.log (nus.getD i 0) :=
  mapGetD Real.log nus i h

lemma diff_mus_swap_neg : ∀ (t1 t2 : List ℝ),
    diff_mus t1 t2 = (diff_mus t2 t1).map (fun x => -x) := by
  intro t1
  induction t1 with
  | nil => intro t2; cases t2 <;> simp [diff_mus]
  | cons a t ih =>
      intro t2
      cases t2 with
      | nil => simp [diff_mus]
      | cons b t2t =>
          simp only [diff_mus, List.zipWith_cons_cons, List.map_cons, neg_sub]
          exact congrArg (List.cons (a - b)) (ih t2t)

lemma muTau_buildModel_mu1 (g1 g2 : List ℚ) (N : ℕ) :
    muTau (buildModel g1 g2 N) "mu_1" = some (1 / var (g1 ++ g2) / (N : ℚ)) := rfl

lemma muTau_buildModel_mu2 (g1 g2 : List ℚ) (N : ℕ) :
    muTau (buildModel g1 g2 N) "mu_2" = some (1 / var (g1 ++ g2) / (N : ℚ)) := rfl

/-- C1 (counterexample): on a successful run with two samples and
visualization requested, the value `bayes_ttest` hands back to the caller
is `none` — the source ends in a bare `return` — so no `ComparisonResult`
aggregate with the mean and effect-size estimates is returned. -/
theorem C1_counterexample :
    Except.map (fun r => (r.plotted, r.ret))
        (bayes_ttest constEngine (some [[0], [2]]) 40 true)
      = .ok (true, none) := rfl

/-- C1 (amended): for every successful run with exactly two samples, the
orchestration computes and prints the group-1 mean estimate, the group-2
mean estimate and the effect-size estimate — each the mean of the
corresponding derived trace — and hands the traces to the plotting
collaborator exactly when visualization is requested, but returns `None`
to the caller rather than a `ComparisonResult` aggregate. -/
theorem C1_amended_summaries (engine : Engine) (g1 g2 : List ℚ) (N : ℕ) (sf : Bool) :
    bayes_ttest engine (some [g1, g2]) N sf =
      .ok ⟨⟨mean (engine (buildModel g1 g2 N) demoRunConfig).mus1,
            mean (engine (buildModel g1 g2 N) demoRunConfig).mus2,
            mean (effect_size (engine (buildModel g1 g2 N) demoRunConfig).mus1
                              (engine (buildModel g1 g2 N) demoRunConfig).mus2
                              (engine (buildModel g1 g2 N) demoRunConfig).sigmas1
                              (engine (buildModel g1 g2 N) demoRunConfig).sigmas2)⟩,
           sf, none⟩ := rfl

/-- C2: with a supplied groups collection whose cardinality is not two,
`bayes_ttest` fails with `invalidGroupCount` uniformly in the sampling
engine (so before any sampling is performed and with no partial work);
with exactly two samples it succeeds for every engine. -/
theorem C2_group_count (gs : List (List ℚ)) (N : ℕ) (sf : Bool) :
    (gs.length ≠ 2 → ∀ engine : Engine,
        bayes_ttest engine (some gs) N sf = .error (.invalidGroupCount gs.length))
    ∧ (gs.length = 2 → ∀ engine : Engine,
        succeeded (bayes_ttest engine (some gs) N sf)) := by
  constructor
  · intro hne engine
    cases gs with
    | nil => rfl
    | cons a tl =>
        cases tl with
        | nil => rfl
        | cons b tl2 =>
            cases tl2 with
            | nil => exact absurd rfl hne
            | cons c tl3 => rfl
  · intro he engine
    cases gs with
    | nil => exact absurd he (by simp)
    | cons a tl =>
        cases tl with
        | nil => exact absurd he (by simp)
        | cons b tl2 =>
            cases tl2 with
            | nil => exact ⟨_, rfl⟩
            | cons c tl3 => exact absurd he (by simp)

/-- C2 (witness): a one-element collection is rejected with
`invalidGroupCount 1`, and a two-element collection succeeds. -/
theorem C2_group_count_witness :
    bayes_ttest constEngine (some [[1]]) 40 false = .error (.invalidGroupCount 1)
    ∧ succeeded (bayes_ttest constEngine (some [[1], [2]]) 40 false) :=
  ⟨(C2_group_count [[1]] 40 false).1 (by decide) constEngine,
   (C2_group_count [[1], [2]] 40 false).2 rfl constEngine⟩

/-- C3: the claim says the `sampleSize` parameter controls the synthetic
data volume, but the source calls `gen_data(N=40)` with the literal `40`
instead of the parameter `N`; at `N = 1` with `groups` unset, the two
generated samples have length `40`, not `1`. -/
theorem C3_synthetic_length_ignores_N :
    (resolveGroups none 1).map (fun p => (p.1.length, p.2.length)) = .ok (40, 40)
    ∧ (40 : ℕ) ≠ 1 :=
  ⟨rfl, by decide⟩

/-- C4: the model has exactly five latent parameters — two group means
with normal priors centered at the pooled mean and precision
`1 / (pooledVariance * N)` (scaled down by the sample-size parameter), two
group scales with uniform priors on
`[pooledVariance / 1000, pooledVariance * 1000]`, and one shared
robustness parameter with an exponential prior. -/
theorem C4_latent_parameters (g1 g2 : List ℚ) (N : ℕ) :
    (latents (buildModel g1 g2 N)).length = 5
    ∧ latents (buildModel g1 g2 N) =
        [⟨"mu_1", .normal (mean (g1 ++ g2)) (1 / (var (g1 ++ g2) * (N : ℚ)))⟩,
         ⟨"sigma_1", .uniform (var (g1 ++ g2) / 1000) (var (g1 ++ g2) * 1000)⟩,
         ⟨"mu_2", .normal (mean (g1 ++ g2)) (1 / (var (g1 ++ g2) * (N : ℚ)))⟩,
         ⟨"sigma_2", .uniform (var (g1 ++ g2) / 1000) (var (g1 ++ g2) * 1000)⟩,
         ⟨"nu", .exponential (1 / 29)⟩] := by
  refine ⟨rfl, ?_⟩
  rw [latents_buildModel]
  simp only [div_div]

/-- C5: the derived traces are computed elementwise — the
difference-of-means trace subtracts the two mean traces, the effect-size
trace divides the mean difference by `sqrt((scale1^2 + scale2^2) / 2)` per
posterior draw, the normality indicator is the natural log of the
robustness trace — and the per-group mean estimates reported by a run are
the sample means of the corresponding mean traces. -/
theorem C5_derived_traces (mus1 mus2 sigmas1 sigmas2 nus : List ℝ) (n i : ℕ)
    (h1 : mus1.length = n) (h2 : mus2.length = n) (h3 : sigmas1.length = n)
    (h4 : sigmas2.length = n) (h5 : nus.length = n) (hi : i < n) :
    (diff_mus mus1 mus2).getD i 0 = mus1.getD i 0 - mus2.getD i 0
    ∧ (effect_size mus1 mus2 sigmas1 sigmas2).getD i 0 =
        (mus1.getD i 0 - mus2.getD i 0) /
          Real.sqrt ((sigmas1.getD i 0 ^ 2 + sigmas2.getD i 0 ^ 2) / 2)
    ∧ (normality nus).getD i 0 = Real.log (nus.getD i 0)
    ∧ ∀ (engine : Engine) (g1 g2 : List ℚ) (N : ℕ) (sf : Bool),
        Except.map (fun r => (r.printed.group1Mu, r.printed.group2Mu))
            (runComparison engine g1 g2 N sf)
          = .ok (mean (engine (buildModel g1 g2 N) demoRunConfig).mus1,
                 mean (engine (buildModel g1 g2 N) demoRunConfig).mus2) := by
  refine ⟨diff_mus_getD mus1 mus2 i (by omega) (by omega),
    effect_size_getD mus1 mus2 sigmas1 sigmas2 i (by omega) (by omega) (by omega) (by omega),
    normality_getD nus i (by omega), ?_⟩
  intro engine g1 g2 N sf
  rfl

/-- C5 (witness): the elementwise formulas evaluated on the singleton
traces `[3]`, `[1]`, `[1]`, `[1]`, `[1]` at index zero, and the reported
per-group estimates of a concrete run. -/
theorem C5_derived_traces_witness :
    (diff_mus [3] [1]).getD 0 0 = ([3] : List ℝ).getD 0 0 - ([1] : List ℝ).getD 0 0
    ∧ (effect_size [3] [1] [1] [1]).getD 0 0 =
        (([3] : List ℝ).getD 0 0 - ([1] : List ℝ).getD 0 0) /
          Real.sqrt ((([1] : List ℝ).getD 0 0 ^ 2 + ([1] : List ℝ).getD 0 0 ^ 2) / 2)
    ∧ (normality [1]).getD 0 0 = Real.log (([1] : List ℝ).getD 0 0)
    ∧ Except.map (fun r => (r.printed.group1Mu, r.printed.group2Mu))
          (runComparison constEngine [0] [2] 40 false)
        = .ok (mean (constEngine (buildModel [0] [2] 40) demoRunConfig).mus1,
               mean (constEngine (buildModel [0] [2] 40) demoRunConfig).mus2) := by
  have h := C5_derived_traces [3] [1] [1] [1] [1] 1 0 rfl rfl rfl rfl rfl (by decide)
  exact ⟨h.1, h.2.1, h.2.2.1, h.2.2.2 constEngine [0] [2] 40 false⟩

/-- C6: the pooled mean centering both group-mean priors is the mean of
the concatenation of the two samples and is invariant under swapping the
groups; swapping only swaps which sample is attached to which observed
node (the latent priors are unchanged), and the difference-of-means trace
negates elementwise. -/
theorem C6_order_symmetry (A B : List ℚ) (N : ℕ) (t1 t2 : List ℝ) :
    mean (A ++ B) = mean (B ++ A)
    ∧ (latents (buildModel A B N)).head?.map (fun s => s.prior)
        = some (.normal (mean (A ++ B)) (1 / var (A ++ B) / (N : ℚ)))
    ∧ latents (buildModel A B N) = latents (buildModel B A N)
    ∧ (observedNodes (buildModel A B N)).map ObservedT.value = [A, B]
    ∧ (observedNodes (buildModel B A N)).map ObservedT.value = [B, A]
    ∧ diff_mus t1 t2 = (diff_mus t2 t1).map (fun x => -x) := by
  refine ⟨mean_append_comm A B, ?_, ?_, ?_, ?_, diff_mus_swap_neg t1 t2⟩
  · rw [latents_buildModel]
    rfl
  · rw [latents_buildModel, latents_buildModel, mean_append_comm A B, var_append_comm A B]
  · rw [observedNodes_buildModel]
    rfl
  · rw [observedNodes_buildModel]
    rfl

/-- C7: the demonstrated sampling configuration is 40000 total iterations,
10000 burn-in and stride 2, which satisfies the validity condition
(burn-in at least zero and below the total, stride at least one); any
configuration whose burn-in reaches the total fails validation and the
sampler returns an error for every engine, without the engine being
consulted. -/
theorem C7_run_configuration :
    demoRunConfig.total = 40000
    ∧ demoRunConfig.burnIn = 10000
    ∧ demoRunConfig.stride = 2
    ∧ validRunConfig demoRunConfig
    ∧ ∀ c : RunConfig, c.total ≤ c.burnIn →
        ¬ validRunConfig c
        ∧ ∀ (engine : Engine) (m : List Node),
            runSampler engine m c = .error .samplingFailed := by
  refine ⟨rfl, rfl, rfl, by decide, ?_⟩
  intro c hc
  have hnv : ¬ validRunConfig c := by
    intro hv
    have := hv.2.1
    omega
  exact ⟨hnv, fun engine m => by simp [runSampler, hnv]⟩

/-- C7 (witness): the configuration with 100 total iterations and 100
burn-in is invalid, and the sampler rejects it for a concrete engine and
model. -/
theorem C7_run_configuration_witness :
    ¬ validRunConfig ⟨100, 100, 1⟩
    ∧ runSampler constEngine [] ⟨100, 100, 1⟩ = .error .samplingFailed :=
  ⟨(C7_run_configuration.2.2.2.2 ⟨100, 100, 1⟩ (by decide)).1,
   (C7_run_configuration.2.2.2.2 ⟨100, 100, 1⟩ (by decide)).2 constEngine []⟩

/-- C8: the two observed-likelihood nodes of the model are both registered
under the same label `"t_1"` — the label is reused for the second group
instead of a distinct identifier. -/
theorem C8_duplicate_observed_label (g1 g2 : List ℚ) (N : ℕ) :
    (observedNodes (buildModel g1 g2 N)).map ObservedT.name = ["t_1", "t_1"] := rfl

/-- C9: when every entry of both scale traces is strictly positive, the
effect-size divisor `sqrt((scale1^2 + scale2^2) / 2)` is strictly positive
at every index, and the division is well defined there: multiplying the
effect-size entry back by the divisor recovers the mean difference. -/
theorem C9_divisor_positive (mus1 mus2 sigmas1 sigmas2 : List ℝ) (n i : ℕ)
    (h1 : mus1.length = n) (h2 : mus2.length = n) (h3 : sigmas1.length = n)
    (h4 : sigmas2.length = n) (hi : i < n)
    (hp1 : ∀ x ∈ sigmas1, 0 < x) (hp2 : ∀ x ∈ sigmas2, 0 < x) :
    0 < Real.sqrt ((sigmas1.getD i 0 ^ 2 + sigmas2.getD i 0 ^ 2) / 2)
    ∧ (effect_size mus1 mus2 sigmas1 sigmas2).getD i 0 *
        Real.sqrt ((sigmas1.getD i 0 ^ 2 + sigmas2.getD i 0 ^ 2) / 2)
      = mus1.getD i 0 - mus2.getD i 0 := by
  have ha : 0 < sigmas1.getD i 0 := hp1 _ (memGetD sigmas1 i (by omega))
  have hb : 0 < sigmas2.getD i 0 := hp2 _ (memGetD sigmas2 i (by omega))
  have hs : 0 < Real.sqrt ((sigmas1.getD i 0 ^ 2 + sigmas2.getD i 0 ^ 2) / 2) :=
    Real.sqrt_pos.mpr (by positivity)
  refine ⟨hs, ?_⟩
  rw [effect_size_getD mus1 mus2 sigmas1 sigmas2 i (by omega) (by omega) (by omega) (by omega)]
  exact div_mul_cancel₀ _ (ne_of_gt hs)

/-- C9 (witness): with scale traces `[1]` and `[1]` and mean traces `[3]`
and `[1]`, the divisor at index zero is positive and the effect-size entry
times the divisor equals the mean difference. -/
theorem C9_divisor_positive_witness :
    0 < Real.sqrt ((([1] : List ℝ).getD 0 0 ^ 2 + ([1] : List ℝ).getD 0 0 ^ 2) / 2)
    ∧ (effect_size [3] [1] [1] [1]).getD 0 0 *
        Real.sqrt ((([1] : List ℝ).getD 0 0 ^ 2 + ([1] : List ℝ).getD 0 0 ^ 2) / 2)
      = ([3] : List ℝ).getD 0 0 - ([1] : List ℝ).getD 0 0 :=
  C9_divisor_positive [3] [1] [1] [1] 1 0 rfl rfl rfl rfl (by decide)
    (by intro x hx; simp only [List.mem_singleton] at hx; rw [hx]; norm_num)
    (by intro x hx; simp only [List.mem_singleton] at hx; rw [hx]; norm_num)

/-- C10: both group-mean prior precisions equal
`1 / (pooledVariance * N)` where `N` is the separate sample-size
parameter; two supplied pairs of groups with the same pooled variance get
identical precisions regardless of the lengths of the samples. -/
theorem C10_precision_uses_parameter (A B A2 B2 : List ℚ) (N : ℕ)
    (hvar : var (A ++ B) = var (A2 ++ B2)) :
    muTau (buildModel A B N) "mu_1" = some (1 / (var (A ++ B) * (N : ℚ)))
    ∧ muTau (buildModel A B N) "mu_2" = some (1 / (var (A ++ B) * (N : ℚ)))
    ∧ muTau (buildModel A B N) "mu_1" = muTau (buildModel A2 B2 N) "mu_1"
    ∧ muTau (buildModel A B N) "mu_2" = muTau (buildModel A2 B2 N) "mu_2" := by
  refine ⟨?_, ?_, ?_, ?_⟩
  · rw [muTau_buildModel_mu1, div_div]
  · rw [muTau_buildModel_mu2, div_div]
  · rw [muTau_buildModel_mu1, muTau_buildModel_mu1, hvar]
  · rw [muTau_buildModel_mu2, muTau_buildModel_mu2, hvar]

/-- C10 (witness): the pairs `([0], [2])` and `([0, 0], [2, 2])` have
samples of different lengths but the same pooled variance, and both models
assign the same precision `1 / (pooledVariance * 40)` to each group-mean
prior. -/
theorem C10_precision_uses_parameter_witness :
    var (([0] : List ℚ) ++ [2]) = var (([0, 0] : List ℚ) ++ [2, 2])
    ∧ (muTau (buildModel [0] [2] 40) "mu_1"
          = some (1 / (var (([0] : List ℚ) ++ [2]) * (40 : ℚ)))
       ∧ muTau (buildModel [0] [2] 40) "mu_2"
          = some (1 / (var (([0] : List ℚ) ++ [2]) * (40 : ℚ)))
       ∧ muTau (buildModel [0] [2] 40) "mu_1" = muTau (buildModel [0, 0] [2, 2] 40) "mu_1"
       ∧ muTau (buildModel [0] [2] 40) "mu_2" = muTau (buildModel [0, 0] [2, 2] 40) "mu_2") :=
  ⟨by norm_num [var, mean], C10_precision_uses_parameter [0] [2] [0, 0] [2, 2] 40
    (by norm_num [var, mean])⟩

end BayesTTest
